import Mathlib

/-!
Verification development for the fusion-icp-bridge atomic-swap orchestrator.

The Rust sources embedded here:
  * `icp_escrow_canister/src/lib.rs` — the hashlock/timelock escrow canister
    (`deposit_tokens`, `release_with_secret`, `refund_expired`, queries);
  * `resolver_canister_backend/src/lib.rs` — the resolver orchestrator
    (`initiate_evm_to_icp_swap`, `check_escrow_funding`, `refund_expired_swap`,
    `public_key_to_eth_address`);
  * `resolver_canister_backend/src/external/icp_escrow.rs` — escrow client
    helpers and `complete_swap`;
  * `resolver_canister_backend/src/external/evm_rpc.rs` and
    `wallet_canister/src/lib.rs` — their `public_key_to_eth_address` variants.

Bytes are `Nat` values `< 256`, byte strings are `List Nat`, principals are
modelled as `Nat` identifiers, u128/u64 arithmetic keeps explicit `% 2 ^ w`
where the Rust code casts.  External effects (the token ledger, the EVM RPC
gateway, randomness, `ic_cdk::api::time`, inter-canister calls) enter the
model as explicit parameters/oracles, exactly at the call sites where the
Rust code awaits them.  SHA-256 and Keccak-256 (the `sha2` / `sha3` crates
used by the sources) are implemented concretely below.
-/

set_option maxRecDepth 100000

/-! ## Byte and word utilities -/

/-- Truncate to a 32-bit word, as u32 arithmetic does. -/
def w32 (n : Nat) : Nat := n % 4294967296

/-- Truncate to a 64-bit word, as the Rust `as u64` cast does. -/
def w64 (n : Nat) : Nat := n % 18446744073709551616

/-- Rotate a 32-bit word right by `k` (0 ≤ k < 32). -/
def rotr32 (x k : Nat) : Nat := w32 ((x >>> k) ||| (x <<< (32 - k)))

/-- Rotate a 64-bit word left by `k` (0 ≤ k < 64). -/
def rotl64 (x k : Nat) : Nat := w64 ((x <<< k) ||| (x >>> (64 - k)))

/-- Big-endian byte encoding of `n` on `k` bytes. -/
def beBytes : Nat → Nat → List Nat
  | 0, _ => []
  | k + 1, n => beBytes k (n >>> 8) ++ [n % 256]

/-- Little-endian byte encoding of `n` on `k` bytes. -/
def leBytes : Nat → Nat → List Nat
  | 0, _ => []
  | k + 1, n => n % 256 :: leBytes k (n >>> 8)

/-- Chunking worker: `acc` is the current chunk reversed, `c` its remaining capacity. -/
def chunksGo (k : Nat) : List α → List α → Nat → List (List α)
  | [], acc, _ => if acc.isEmpty then [] else [acc.reverse]
  | _ :: _, _, 0 => []
  | x :: xs, acc, c + 1 =>
      if c = 0 then (x :: acc).reverse :: chunksGo k xs [] (k + 1)
      else chunksGo k xs (x :: acc) c

/-- Split a list into chunks of `k + 1` elements (the last may be shorter). -/
def chunksOf (k : Nat) (l : List α) : List (List α) := chunksGo k l [] (k + 1)

/-- Group bytes into 32-bit big-endian words. -/
def toW32s : List Nat → List Nat
  | a :: b :: c :: d :: rest =>
      (a * 16777216 + b * 65536 + c * 256 + d) :: toW32s rest
  | _ => []

/-- Group bytes into 64-bit little-endian lanes. -/
def toLanesLE : List Nat → List Nat
  | b0 :: b1 :: b2 :: b3 :: b4 :: b5 :: b6 :: b7 :: rest =>
      (b0 + 256 * (b1 + 256 * (b2 + 256 * (b3 + 256 * (b4 + 256 * (b5 + 256 * (b6 + 256 * b7))))))) ::
        toLanesLE rest
  | _ => []

/-- Lowercase hex encoding of a byte string, as Rust `hex::encode`. -/
def hexEncode (l : List Nat) : String :=
  String.mk (l.foldr (fun b acc => Nat.digitChar (b / 16) :: Nat.digitChar (b % 16) :: acc) [])

/-! ## SHA-256 (the `sha2` crate's `Sha256::digest`) -/

def shaK : List Nat := [
  1116352408, 1899447441, 3049323471, 3921009573, 961987163, 1508970993,
  2453635748, 2870763221, 3624381080, 310598401, 607225278, 1426881987,
  1925078388, 2162078206, 2614888103, 3248222580, 3835390401, 4022224774,
  264347078, 604807628, 770255983, 1249150122, 1555081692, 1996064986,
  2554220882, 2821834349, 2952996808, 3210313671, 3336571891, 3584528711,
  113926993, 338241895, 666307205, 773529912, 1294757372, 1396182291,
  1695183700, 1986661051, 2177026350, 2456956037, 2730485921, 2820302411,
  3259730800, 3345764771, 3516065817, 3600352804, 4094571909, 275423344,
  430227734, 506948616, 659060556, 883997877, 958139571, 1322822218,
  1537002063, 1747873779, 1955562222, 2024104815, 2227730452, 2361852424,
  2428436474, 2756734187, 3204031479, 3329325298
]

def shaH0 : List Nat :=
  [1779033703, 3144134277, 1013904242, 2773480762,
   1359893119, 2600822924, 528734635, 1541459225]

def ssig0 (w : Nat) : Nat := Nat.xor (Nat.xor (rotr32 w 7) (rotr32 w 18)) (w >>> 3)

def ssig1 (w : Nat) : Nat := Nat.xor (Nat.xor (rotr32 w 17) (rotr32 w 19)) (w >>> 10)

def bsig0 (w : Nat) : Nat := Nat.xor (Nat.xor (rotr32 w 2) (rotr32 w 13)) (rotr32 w 22)

def bsig1 (w : Nat) : Nat := Nat.xor (Nat.xor (rotr32 w 6) (rotr32 w 11)) (rotr32 w 25)

def chf (e f g : Nat) : Nat := Nat.xor (Nat.land e f) (Nat.land (Nat.xor e 4294967295) g)

def maj (u v w : Nat) : Nat :=
  Nat.xor (Nat.xor (Nat.land u v) (Nat.land u w)) (Nat.land v w)

/-- SHA-256 padding: append `0x80`, zero bytes, then the 64-bit bit length. -/
def sha256Pad (m : List Nat) : List Nat :=
  let len := m.length
  let zeros := (119 - len % 64) % 64
  m ++ [128] ++ List.replicate zeros 0 ++ beBytes 8 (8 * len)

/-- Message schedule: extend 16 words to 64, accumulator kept reversed. -/
def schedGo : Nat → List Nat → List Nat
  | 0, acc => acc.reverse
  | t + 1, acc =>
      let nw := w32 (ssig1 (acc.getD 1 0) + acc.getD 6 0 + ssig0 (acc.getD 14 0) + acc.getD 15 0)
      schedGo t (nw :: acc)

def msgSched (ws : List Nat) : List Nat := schedGo 48 ws.reverse

def shaRound (st : List Nat) (kw : Nat × Nat) : List Nat :=
  match st with
  | [a, b, c, d, e, f, g, h] =>
      let t1 := w32 (h + bsig1 e + chf e f g + kw.1 + kw.2)
      let t2 := w32 (bsig0 a + maj a b c)
      [w32 (t1 + t2), a, b, c, w32 (d + t1), e, f, g]
  | other => other

def sha256Compress (h : List Nat) (ws16 : List Nat) : List Nat :=
  let st := (shaK.zip (msgSched ws16)).foldl shaRound h
  (h.zip st).map (fun p => w32 (p.1 + p.2))

/-- SHA-256 digest of a byte string (32 bytes out). -/
def sha256 (m : List Nat) : List Nat :=
  let blocks := chunksOf 15 (toW32s (sha256Pad m))
  (blocks.foldl sha256Compress shaH0).foldr (fun w acc => beBytes 4 w ++ acc) []

example : sha256 [] =
    [227, 176, 196, 66, 152, 252, 28, 20, 154, 251, 244,
     200, 153, 111, 185, 36, 39, 174, 65, 228, 100, 155,
     147, 76, 164, 149, 153, 27, 120, 82, 184, 85] := by decide

example : sha256 [97, 98, 99] =
    [186, 120, 22, 191, 143, 1, 207, 234, 65, 65, 64,
     222, 93, 174, 34, 35, 176, 3, 97, 163, 150, 23,
     122, 156, 180, 16, 255, 97, 242, 0, 21, 173] := by decide

/-! ## Keccak-256 (the `sha3` crate's `Keccak256::digest`, legacy 0x01 padding) -/

def keccakRC : List Nat := [
  1, 32898, 9223372036854808714,
  9223372039002292224, 32907, 2147483649,
  9223372039002292353, 9223372036854808585, 138,
  136, 2147516425, 2147483658,
  2147516555, 9223372036854775947, 9223372036854808713,
  9223372036854808579, 9223372036854808578, 9223372036854775936,
  32778, 9223372039002259466, 9223372039002292353,
  9223372036854808704, 2147483649, 9223372039002292232
]

/-- Rotation offsets, indexed `keccakRho[x][y]` for lane (x, y). -/
def keccakRho : List (List Nat) :=
  [[0, 36, 3, 41, 18], [1, 44, 10, 45, 2], [62, 6, 43, 15, 61],
   [28, 55, 25, 21, 56], [27, 20, 39, 8, 14]]

/-- Lane (x, y) of a 25-lane state, index `x + 5 * y`. -/
def lget (A : List Nat) (x y : Nat) : Nat := A.getD (x % 5 + 5 * (y % 5)) 0

def thetaC (A : List Nat) (x : Nat) : Nat :=
  lget A x 0 ^^^ lget A x 1 ^^^ lget A x 2 ^^^ lget A x 3 ^^^ lget A x 4

def theta (A : List Nat) : List Nat :=
  (List.range 25).map (fun i =>
    let x := i % 5
    A.getD i 0 ^^^ (thetaC A ((x + 4) % 5) ^^^ rotl64 (thetaC A ((x + 1) % 5)) 1))

def rhopi (A : List Nat) : List Nat :=
  (List.range 25).map (fun j =>
    let X := j % 5
    let Y := j / 5
    let x := (X + 3 * Y) % 5
    let y := X
    rotl64 (lget A x y) ((keccakRho.getD x []).getD y 0))

def chi (A : List Nat) : List Nat :=
  (List.range 25).map (fun j =>
    let x := j % 5
    let y := j / 5
    lget A x y ^^^ ((lget A (x + 1) y ^^^ 18446744073709551615) &&& lget A (x + 2) y))

def iotaStep (A : List Nat) (rc : Nat) : List Nat :=
  match A with
  | a :: rest => (a ^^^ rc) :: rest
  | [] => []

def keccakF (A : List Nat) : List Nat :=
  keccakRC.foldl (fun A rc => iotaStep (chi (rhopi (theta A))) rc) A

/-- Keccak pad10*1 with domain byte 0x01 (legacy Keccak, as Ethereum uses). -/
def keccakPad (m : List Nat) : List Nat :=
  let k := (136 - (m.length + 1) % 136) % 136
  let padded := m ++ [1] ++ List.replicate k 0
  padded.dropLast ++ [(padded.getLast?.getD 0) ^^^ 128]

def keccakAbsorb (A : List Nat) (block : List Nat) : List Nat :=
  keccakF ((List.range 25).map (fun i => A.getD i 0 ^^^ block.getD i 0))

/-- Keccak-256 digest of a byte string (32 bytes out). -/
def keccak256 (m : List Nat) : List Nat :=
  let lanes := toLanesLE (keccakPad m)
  let A := (chunksOf 16 lanes).foldl keccakAbsorb (List.replicate 25 0)
  (A.take 4).foldr (fun lane acc => leBytes 8 lane ++ acc) []

example : keccak256 [] =
    [197, 210, 70, 1, 134, 247, 35, 60, 146, 126, 125,
     178, 220, 199, 3, 192, 229, 0, 182, 83, 202, 130,
     39, 59, 123, 250, 216, 4, 93, 133, 164, 112] := by decide

/-! ## Actor-chain escrow canister (`icp_escrow_canister/src/lib.rs`)

Principals are `Nat` identifiers.  `ic_cdk::api::time` (nanoseconds) is the
`timeNs` parameter; the token-ledger `transfer` call is the `TransferOutcome`
oracle parameter.  Each update method also reports the `TransferArgs` it sent
to the ledger (`none` when it errored before the call). -/

inductive IcpEscrowStatus where
  | Created
  | Funded
  | Released
  | Refunded
  | Expired
deriving DecidableEq, Repr

structure IcpEscrowParams where
  secret_hash : List Nat
  timelock : Nat
  amount : Nat
  token_ledger : Nat
  depositor : Nat
  recipient : Nat
  resolver : Nat
deriving DecidableEq, Repr

structure EscrowState where
  params : Option IcpEscrowParams
  deposited_amount : Nat
  status : IcpEscrowStatus
  secret : Option (List Nat)
deriving DecidableEq, Repr

/-- `init(params)` of the escrow canister. -/
def escrowInit (p : IcpEscrowParams) : EscrowState :=
  { params := some p, deposited_amount := 0, status := .Created, secret := none }

/-- Outcome of the awaited ledger `transfer` call: `TransferResult::Ok`,
    `TransferResult::Err`, or a failed inter-canister call. -/
inductive TransferOutcome where
  | ok (blockHeight : Nat)
  | transferErr (msg : String)
  | callErr (msg : String)
deriving DecidableEq, Repr

/-- The `TransferArgs` the escrow hands to the ledger.  `amount_e8s` is
    `Tokens::from_e8s(x as u64)`, hence the explicit `% 2 ^ 64`. -/
structure LedgerTransfer where
  memo : Nat
  amount_e8s : Nat
  fee_e8s : Nat
  to_owner : Nat
deriving DecidableEq, Repr

/-- Result of one escrow update call. -/
structure EscrowOut where
  res : Except String String
  st : EscrowState
  call : Option LedgerTransfer
deriving Repr

/-- `deposit_tokens(amount)`: `self` is `ic_cdk::id()`, `caller` is
    `ic_cdk::caller()`.  Checks depositor, amount, `Created` state; then
    transfers `amount as u64` e8s to its own account and on success sets
    `deposited_amount = amount`, `status = Funded`. -/
def deposit_tokens (self caller amount : Nat) (st : EscrowState)
    (outcome : TransferOutcome) : EscrowOut :=
  match st.params with
  | none => ⟨.error "Escrow not initialized", st, none⟩
  | some p =>
    if caller = p.depositor then
      if amount = p.amount then
        if st.status = .Created then
          let call : LedgerTransfer := ⟨0, amount % 18446744073709551616, 10000, self⟩
          match outcome with
          | .ok b =>
              ⟨.ok ("Deposited " ++ toString amount ++ " tokens at block " ++ toString b),
               { st with deposited_amount := amount, status := .Funded }, some call⟩
          | .transferErr m => ⟨.error ("Transfer failed: " ++ m), st, some call⟩
          | .callErr m => ⟨.error ("Call failed: " ++ m), st, some call⟩
        else ⟨.error "Escrow not in Created state", st, none⟩
      else ⟨.error ("Amount " ++ toString amount ++ " does not match expected " ++ toString p.amount),
            st, none⟩
    else ⟨.error "Only depositor can call this function", st, none⟩

/-- `release_with_secret(secret)`: resolver-only; checks the SHA-256
    preimage, `Funded` state and `now < timelock`; transfers
    `deposited_amount as u64` e8s to the recipient and on success sets
    `status = Released`, stores the secret. -/
def release_with_secret (caller : Nat) (secret : List Nat) (st : EscrowState)
    (timeNs : Nat) (outcome : TransferOutcome) : EscrowOut :=
  match st.params with
  | none => ⟨.error "Escrow not initialized", st, none⟩
  | some p =>
    if caller = p.resolver then
      if sha256 secret = p.secret_hash then
        if st.status = .Funded then
          if timeNs / 1000000000 < p.timelock then
            let call : LedgerTransfer :=
              ⟨1, st.deposited_amount % 18446744073709551616, 10000, p.recipient⟩
            match outcome with
            | .ok b =>
                ⟨.ok ("Released " ++ toString st.deposited_amount ++
                      " tokens to recipient at block " ++ toString b),
                 { st with status := .Released, secret := some secret }, some call⟩
            | .transferErr m => ⟨.error ("Transfer failed: " ++ m), st, some call⟩
            | .callErr m => ⟨.error ("Call failed: " ++ m), st, some call⟩
          else ⟨.error "Timelock expired", st, none⟩
        else ⟨.error "Escrow not funded", st, none⟩
      else ⟨.error "Invalid secret", st, none⟩
    else ⟨.error "Only resolver can call this function", st, none⟩

/-- `refund_expired()`: any caller; requires `now ≥ timelock` (rejects only
    `now < timelock`) and `Funded` state; transfers `deposited_amount as u64`
    e8s back to the depositor and on success sets `status = Refunded`. -/
def refund_expired (st : EscrowState) (timeNs : Nat)
    (outcome : TransferOutcome) : EscrowOut :=
  match st.params with
  | none => ⟨.error "Escrow not initialized", st, none⟩
  | some p =>
    if timeNs / 1000000000 < p.timelock then
      ⟨.error "Timelock not yet expired", st, none⟩
    else
      if st.status = .Funded then
        let call : LedgerTransfer :=
          ⟨2, st.deposited_amount % 18446744073709551616, 10000, p.depositor⟩
        match outcome with
        | .ok b =>
            ⟨.ok ("Refunded " ++ toString st.deposited_amount ++
                  " tokens to depositor at block " ++ toString b),
             { st with status := .Refunded }, some call⟩
        | .transferErr m => ⟨.error ("Transfer failed: " ++ m), st, some call⟩
        | .callErr m => ⟨.error ("Call failed: " ++ m), st, some call⟩
      else ⟨.error "Escrow not funded", st, none⟩

/-- Query `get_status`. -/
def get_status (st : EscrowState) : IcpEscrowStatus := st.status

/-- Query `is_funded`. -/
def is_funded (st : EscrowState) : Bool := st.status = .Funded

/-- Query `get_secret`. -/
def get_secret (st : EscrowState) : Option (List Nat) := st.secret

/-- Query `get_balance` (returns `deposited_amount`). -/
def get_balance (st : EscrowState) : Nat := st.deposited_amount

/-! ## Suspension semantics for the escrow

Each update method is two steps separated by the awaited ledger transfer:
the pre-transfer phase performs the checks above and issues the transfer;
the post-transfer phase applies the state write.  The Rust code performs the
post-transfer write without re-reading `status`, which is exactly what
`applyPending` reproduces.  A configuration is the canister state plus the
multiset of suspended continuations; steps interleave arbitrarily. -/

inductive PendingOp where
  | depositCommit (amount : Nat)
  | releaseCommit (secret : List Nat)
  | refundCommit
deriving DecidableEq, Repr

/-- Pre-transfer phase of `deposit_tokens`: `some` iff the checks pass and
    the ledger transfer is issued. -/
def depositPending (caller amount : Nat) (st : EscrowState) : Option PendingOp :=
  match st.params with
  | none => none
  | some p =>
    if caller = p.depositor then
      if amount = p.amount then
        if st.status = .Created then some (.depositCommit amount) else none
      else none
    else none

/-- Pre-transfer phase of `release_with_secret`. -/
def releasePending (caller : Nat) (secret : List Nat) (st : EscrowState)
    (timeNs : Nat) : Option PendingOp :=
  match st.params with
  | none => none
  | some p =>
    if caller = p.resolver then
      if sha256 secret = p.secret_hash then
        if st.status = .Funded then
          if timeNs / 1000000000 < p.timelock then some (.releaseCommit secret) else none
        else none
      else none
    else none

/-- Pre-transfer phase of `refund_expired`. -/
def refundPending (st : EscrowState) (timeNs : Nat) : Option PendingOp :=
  match st.params with
  | none => none
  | some p =>
    if timeNs / 1000000000 < p.timelock then none
    else if st.status = .Funded then some .refundCommit else none

/-- Post-transfer write of each update method, applied after the ledger call
    returns `Ok` — with no re-check of `status`, as in the source. -/
def applyPending (st : EscrowState) : PendingOp → EscrowState
  | .depositCommit a => { st with deposited_amount := a, status := .Funded }
  | .releaseCommit s => { st with status := .Released, secret := some s }
  | .refundCommit => { st with status := .Refunded }

/-- Canister state plus suspended continuations awaiting their ledger reply. -/
structure EConf where
  escrow : EscrowState
  pending : List PendingOp
deriving DecidableEq, Repr

/-- One scheduler step: start a message (running its pre-transfer phase at
    some time `timeNs`) or resume a suspended continuation with a successful
    or failed transfer reply.  Starts whose checks fail leave the
    configuration unchanged and are omitted. -/
inductive EStep : EConf → EConf → Prop
  | startDeposit (c : EConf) (caller amount : Nat) (k : PendingOp) :
      depositPending caller amount c.escrow = some k →
      EStep c ⟨c.escrow, c.pending ++ [k]⟩
  | startRelease (c : EConf) (caller : Nat) (secret : List Nat) (timeNs : Nat) (k : PendingOp) :
      releasePending caller secret c.escrow timeNs = some k →
      EStep c ⟨c.escrow, c.pending ++ [k]⟩
  | startRefund (c : EConf) (timeNs : Nat) (k : PendingOp) :
      refundPending c.escrow timeNs = some k →
      EStep c ⟨c.escrow, c.pending ++ [k]⟩
  | commitOk (st : EscrowState) (l1 l2 : List PendingOp) (k : PendingOp) :
      EStep ⟨st, l1 ++ k :: l2⟩ ⟨applyPending st k, l1 ++ l2⟩
  | commitFail (st : EscrowState) (l1 l2 : List PendingOp) (k : PendingOp) :
      EStep ⟨st, l1 ++ k :: l2⟩ ⟨st, l1 ++ l2⟩

/-- Configurations reachable from a freshly initialised escrow. -/
inductive EReach (p : IcpEscrowParams) : EConf → Prop
  | init : EReach p ⟨escrowInit p, []⟩
  | step {c c' : EConf} : EReach p c → EStep c c' → EReach p c'

/-! ## Resolver orchestrator (`resolver_canister_backend/src/lib.rs`)

External effects become parameters: `raw_rand` is the `secret` argument,
`ic_cdk::api::time()` is `timeNs`, the EVM escrow deployment result and the
created ICP escrow canister id are arguments, and the two funding probes of
`check_escrow_funding` (`EvmRpcClient::check_escrow_balance` and the ICP
escrow's `is_funded`) are `Except`-valued oracles.  Principal-to-text
rendering is modelled by `toString`. -/

inductive SwapDirection where
  | EvmToIcp
  | IcpToEvm
deriving DecidableEq, Repr

inductive SwapStatus where
  | EscrowsDeployed
  | ReadyForExecution
  | Completed
  | Expired
  | Refunded
deriving DecidableEq, Repr

inductive FundingStatus where
  | NeitherFunded
  | SourceFunded
  | DestFunded
  | BothFunded
deriving DecidableEq, Repr

inductive ResolverError where
  | InvalidInput (msg : String)
  | ExternalCallError (msg : String)
  | ProcessingError (msg : String)
  | InsufficientCycles (msg : String)
  | NetworkError (msg : String)
  | ContractError (msg : String)
  | OrderNotFound (msg : String)
  | InsufficientLiquidity (msg : String)
  | SlippageExceeded (msg : String)
deriving DecidableEq, Repr

structure CrossChainSwap where
  swap_id : String
  direction : SwapDirection
  user_address : String
  user_icp_principal : String
  source_token : String
  dest_token : String
  amount : Nat
  secret_hash : List Nat
  timelock : Nat
  source_escrow : Option String
  dest_escrow : Option String
  source_escrow_canister : Option Nat
  status : SwapStatus
  secret : Option (List Nat)
deriving DecidableEq, Repr

/-- The orchestrator state fields the embedded operations touch. -/
structure OrchState where
  active_swaps : List (String × CrossChainSwap)
  secret_store : List (String × List Nat)
deriving DecidableEq, Repr

def emptyOrch : OrchState := ⟨[], []⟩

/-- `HashMap::get` on the swap map. -/
def lookupSwap : List (String × CrossChainSwap) → String → Option CrossChainSwap
  | [], _ => none
  | kv :: rest, id => if kv.1 = id then some kv.2 else lookupSwap rest id

/-- `HashMap::remove`. -/
def removeSwap : List (String × CrossChainSwap) → String → List (String × CrossChainSwap)
  | [], _ => []
  | kv :: rest, id => if kv.1 = id then removeSwap rest id else kv :: removeSwap rest id

/-- `HashMap::insert` (replacing any entry with the same key). -/
def insertSwap (l : List (String × CrossChainSwap)) (id : String)
    (sw : CrossChainSwap) : List (String × CrossChainSwap) :=
  (id, sw) :: removeSwap l id

/-- `get_mut(id)` followed by `swap.status = s`. -/
def updateSwapStatus : List (String × CrossChainSwap) → String → SwapStatus →
    List (String × CrossChainSwap)
  | [], _, _ => []
  | kv :: rest, id, s =>
      (if kv.1 = id then (kv.1, { kv.2 with status := s }) else kv) ::
        updateSwapStatus rest id s

def removeSecret : List (String × List Nat) → String → List (String × List Nat)
  | [], _ => []
  | kv :: rest, id => if kv.1 = id then removeSecret rest id else kv :: removeSecret rest id

def insertSecret (l : List (String × List Nat)) (id : String) (s : List Nat) :
    List (String × List Nat) :=
  (id, s) :: removeSecret l id

/-- Success path of `initiate_evm_to_icp_swap`.  `secret` is the `raw_rand`
    output, `timeNs` the canister time, `source_escrow` the EVM deployment
    result and `dest_escrow_canister` the created ICP escrow.  The stored
    swap has `secret_hash = ResolverUtils::hash_secret(secret)` (SHA-256),
    `source_escrow_canister = None` and the ICP escrow only in
    `dest_escrow` (as text). -/
def initiate_evm_to_icp_swap (st : OrchState)
    (user_eth_address user_icp_principal source_token dest_token : String)
    (amount timelock_duration : Nat) (secret : List Nat) (timeNs : Nat)
    (source_escrow : String) (dest_escrow_canister : Nat) :
    OrchState × CrossChainSwap :=
  let swap_id := user_eth_address ++ "-" ++ toString timeNs
  let secret_hash := sha256 secret
  let timelock := timeNs / 1000000000 + timelock_duration
  let swap : CrossChainSwap :=
    { swap_id := swap_id
      direction := .EvmToIcp
      user_address := user_eth_address
      user_icp_principal := user_icp_principal
      source_token := source_token
      dest_token := dest_token
      amount := amount
      secret_hash := secret_hash
      timelock := timelock
      source_escrow := some source_escrow
      dest_escrow := some (toString dest_escrow_canister)
      source_escrow_canister := none
      status := .EscrowsDeployed
      secret := some secret }
  ({ active_swaps := insertSwap st.active_swaps swap_id swap
     secret_store := insertSecret st.secret_store swap_id secret }, swap)

/-- Success path of `initiate_icp_to_evm_swap` (source escrow on ICP: the
    canister id is stored both as text and in `source_escrow_canister`). -/
def initiate_icp_to_evm_swap (st : OrchState)
    (user_icp_principal user_eth_address source_token dest_token : String)
    (amount timelock_duration : Nat) (secret : List Nat) (timeNs : Nat)
    (source_escrow_canister : Nat) (dest_escrow : String) :
    OrchState × CrossChainSwap :=
  let swap_id := user_icp_principal ++ "-" ++ toString timeNs
  let secret_hash := sha256 secret
  let timelock := timeNs / 1000000000 + timelock_duration
  let swap : CrossChainSwap :=
    { swap_id := swap_id
      direction := .IcpToEvm
      user_address := user_eth_address
      user_icp_principal := user_icp_principal
      source_token := source_token
      dest_token := dest_token
      amount := amount
      secret_hash := secret_hash
      timelock := timelock
      source_escrow := some (toString source_escrow_canister)
      dest_escrow := some dest_escrow
      source_escrow_canister := some source_escrow_canister
      status := .EscrowsDeployed
      secret := some secret }
  ({ active_swaps := insertSwap st.active_swaps swap_id swap
     secret_store := insertSecret st.secret_store swap_id secret }, swap)

/-- The `(source_funded, dest_funded)` pair `check_escrow_funding` computes,
    with any probe error propagated (`?`).  The `EvmToIcp` arm reads
    `swap.source_escrow_canister` for the dest side, exactly as the source
    does. -/
def fundingProbes (swap : CrossChainSwap)
    (evmCheck icpCheck : Except ResolverError Bool) :
    Except ResolverError (Bool × Bool) :=
  match swap.direction with
  | .EvmToIcp => do
      let s ← (match swap.source_escrow with
               | some _ => evmCheck
               | none => .ok false)
      let d ← (match swap.source_escrow_canister with
               | some _ => icpCheck
               | none => .ok false)
      .ok (s, d)
  | .IcpToEvm => do
      let s ← (match swap.source_escrow_canister with
               | some _ => icpCheck
               | none => .ok false)
      let d ← (match swap.dest_escrow with
               | some _ => evmCheck
               | none => .ok false)
      .ok (s, d)

/-- `check_escrow_funding(swap_id)`.  `evmCheck` is the result
    `check_escrow_balance` would return, `icpCheck` the result
    `check_icp_escrow_funding` (the escrow's `is_funded`) would return; the
    code only consults them when the corresponding handle field is `Some`. -/
def check_escrow_funding (st : OrchState) (swap_id : String)
    (evmCheck icpCheck : Except ResolverError Bool) :
    Except ResolverError FundingStatus × OrchState :=
  match lookupSwap st.active_swaps swap_id with
  | none => (.error (.OrderNotFound "Swap not found"), st)
  | some swap =>
    match fundingProbes swap evmCheck icpCheck with
    | .error e => (.error e, st)
    | .ok (false, false) => (.ok .NeitherFunded, st)
    | .ok (true, false) => (.ok .SourceFunded, st)
    | .ok (false, true) => (.ok .DestFunded, st)
    | .ok (true, true) =>
        (.ok .BothFunded,
         { st with active_swaps := updateSwapStatus st.active_swaps swap_id .ReadyForExecution })

/-- Observable refund transfers `refund_expired_swap` triggers: an EVM
    `refund_expired_escrow` transaction or an ICP escrow `refund_expired`
    call. -/
inductive RefundAction where
  | evmRefund (escrow : String)
  | icpRefund (canister : Nat)
deriving DecidableEq, Repr

/-- The state cleanup at the end of a successful `refund_expired_swap`. -/
def refundCleanup (st : OrchState) (swap_id : String) : OrchState :=
  { active_swaps := removeSwap st.active_swaps swap_id
    secret_store := removeSecret st.secret_store swap_id }

/-- `refund_expired_swap(swap_id)`.  The time check rejects
    `current_time <= swap.timelock`.  `evmOracle` stands for the chain of
    EVM-side awaits (`generate_order_hash`, `get_resolver_eth_address`,
    `build_immutables`, `refund_expired_escrow`) collapsed into one
    `Except`-valued result; `icpOracle` for the ICP escrow's
    `refund_expired` call.  On full success the swap and its secret are
    removed from the maps.  The third component lists the refund transfers
    actually performed. -/
def refund_expired_swap (st : OrchState) (swap_id : String) (timeNs : Nat)
    (evmOracle icpOracle : Except ResolverError String) :
    Except ResolverError String × OrchState × List RefundAction :=
  match lookupSwap st.active_swaps swap_id with
  | none => (.error (.OrderNotFound "Swap not found"), st, [])
  | some swap =>
    if timeNs / 1000000000 ≤ swap.timelock then
      (.error (.ProcessingError "Swap has not expired yet"), st, [])
    else
      match swap.direction with
      | .EvmToIcp =>
        match swap.source_escrow with
        | some esc =>
          (match evmOracle with
           | .error e => (.error e, st, [])
           | .ok _tx =>
             match swap.source_escrow_canister with
             | some cid =>
               (match icpOracle with
                | .error e => (.error e, st, [.evmRefund esc])
                | .ok _tx2 =>
                    (.ok "Refunded expired swap with transactions",
                     refundCleanup st swap_id, [.evmRefund esc, .icpRefund cid]))
             | none =>
                 (.ok "Refunded expired swap with transactions",
                  refundCleanup st swap_id, [.evmRefund esc]))
        | none =>
          match swap.source_escrow_canister with
          | some cid =>
            (match icpOracle with
             | .error e => (.error e, st, [])
             | .ok _tx =>
                 (.ok "Refunded expired swap with transactions",
                  refundCleanup st swap_id, [.icpRefund cid]))
          | none =>
              (.ok "Refunded expired swap with transactions", refundCleanup st swap_id, [])
      | .IcpToEvm =>
        match swap.source_escrow_canister with
        | some cid =>
          (match icpOracle with
           | .error e => (.error e, st, [])
           | .ok _tx =>
             match swap.dest_escrow with
             | some esc =>
               (match evmOracle with
                | .error e => (.error e, st, [.icpRefund cid])
                | .ok _tx2 =>
                    (.ok "Refunded expired swap with transactions",
                     refundCleanup st swap_id, [.icpRefund cid, .evmRefund esc]))
             | none =>
                 (.ok "Refunded expired swap with transactions",
                  refundCleanup st swap_id, [.icpRefund cid]))
        | none =>
          match swap.dest_escrow with
          | some esc =>
            (match evmOracle with
             | .error e => (.error e, st, [])
             | .ok _tx =>
                 (.ok "Refunded expired swap with transactions",
                  refundCleanup st swap_id, [.evmRefund esc]))
          | none =>
              (.ok "Refunded expired swap with transactions", refundCleanup st swap_id, [])

/-- Orchestrator states reachable through the embedded operations.  External
    inputs (randomness, time, deployment results, oracles) are arbitrary. -/
inductive OrchReach : OrchState → Prop
  | init : OrchReach emptyOrch
  | initiateEvm {st : OrchState} (ue ui stk dtk : String) (a d : Nat)
      (sec : List Nat) (t : Nat) (se : String) (dc : Nat) :
      OrchReach st →
      OrchReach (initiate_evm_to_icp_swap st ue ui stk dtk a d sec t se dc).1
  | initiateIcp {st : OrchState} (ui ue stk dtk : String) (a d : Nat)
      (sec : List Nat) (t : Nat) (sc : Nat) (de : String) :
      OrchReach st →
      OrchReach (initiate_icp_to_evm_swap st ui ue stk dtk a d sec t sc de).1
  | check {st : OrchState} (id : String) (e i : Except ResolverError Bool) :
      OrchReach st → OrchReach (check_escrow_funding st id e i).2
  | refund {st : OrchState} (id : String) (t : Nat)
      (e i : Except ResolverError String) :
      OrchReach st → OrchReach (refund_expired_swap st id t e i).2.1

/-! ## Escrow client module (`external/icp_escrow.rs`) -/

inductive ExtSwapStatus where
  | Created
  | IcpEscrowDeployed
  | IcpEscrowFunded
  | Completed
  | Failed
deriving DecidableEq, Repr

/-- The `CrossChainSwap` of `external/icp_escrow.rs` (a separate map keyed
    by the EVM order hash, distinct from the orchestrator's swap map). -/
structure ExtSwap where
  evm_order_hash : String
  icp_escrow_canister : Option Nat
  secret_hash : List Nat
  amount : Nat
  recipient : Nat
  status : ExtSwapStatus
  created_at : Nat
  timelock : Nat
deriving DecidableEq, Repr

/-- Inter-canister escrow calls this module can issue. -/
inductive EscrowCall where
  | releaseCall (canister : Nat) (secret : List Nat)
  | refundCall (canister : Nat)
deriving DecidableEq, Repr

/-- `release_icp_escrow(escrow_canister, secret)`: the one helper that
    reveals a secret to an ICP escrow, by calling its
    `release_with_secret`.  `reply` is the awaited inter-canister result. -/
def release_icp_escrow (escrow_canister : Nat) (secret : List Nat)
    (reply : Except String (Except String String)) :
    Except ResolverError String × List EscrowCall :=
  (match reply with
   | .ok (.ok tx) => .ok tx
   | .ok (.error e) => .error (.ProcessingError ("Escrow release failed: " ++ e))
   | .error m => .error (.ExternalCallError ("Failed to release escrow: " ++ m)),
   [.releaseCall escrow_canister secret])

/-- `complete_swap(evm_order_hash, _secret)`: sets the stored swap's status
    to `Completed` and returns `Ok(())`.  It ignores the secret, performs no
    inter-canister call (empty `EscrowCall` trace), and checks no
    precondition on the current status. -/
def complete_swap (swaps : List (String × ExtSwap)) (evm_order_hash : String)
    (_secret : List Nat) :
    Except ResolverError Unit × List (String × ExtSwap) × List EscrowCall :=
  (.ok (),
   swaps.map (fun kv =>
     if kv.1 = evm_order_hash then (kv.1, { kv.2 with status := .Completed }) else kv),
   [])

/-! ## Ethereum address derivation (three embedded copies) -/

/-- `public_key_to_eth_address` in `resolver_canister_backend/src/lib.rs`:
    drops the 0x04 prefix byte, hashes with SHA-256, hex-encodes the last 20
    bytes. -/
def public_key_to_eth_address (public_key : List Nat) : String :=
  "0x" ++ hexEncode ((sha256 (public_key.drop 1)).drop 12)

/-- `EvmRpcClient::public_key_to_eth_address` in `external/evm_rpc.rs`:
    same shape but hashes with Keccak-256. -/
def evm_rpc_public_key_to_eth_address (public_key : List Nat) : String :=
  "0x" ++ hexEncode ((keccak256 (public_key.drop 1)).drop 12)

/-- `public_key_to_eth_address` in `wallet_canister/src/lib.rs`: hashes with
    SHA-256 (its comment: would use Keccak-256 in production). -/
def wallet_public_key_to_eth_address (public_key : List Nat) : String :=
  "0x" ++ hexEncode ((sha256 (public_key.drop 1)).drop 12)

/-! ## Shared concrete instances -/

deriving instance DecidableEq for Except

/-- A 32-byte all-zero secret. -/
def sZeros : List Nat := List.replicate 32 0

/-- Demo escrow parameters hashlocked on `sZeros`. -/
def pDemo : IcpEscrowParams :=
  { secret_hash := sha256 sZeros, timelock := 1000, amount := 50,
    token_ledger := 9, depositor := 1, recipient := 2, resolver := 3 }

/-- The demo escrow right after a successful deposit. -/
def stFun : EscrowState :=
  { params := some pDemo, deposited_amount := 50, status := .Funded, secret := none }

/-- Escrow parameters whose `amount` does not fit in u64. -/
def pBig : IcpEscrowParams :=
  { secret_hash := sha256 sZeros, timelock := 1000, amount := 18446744073709551616,
    token_ledger := 9, depositor := 1, recipient := 2, resolver := 3 }

/-- The uncompressed public key from the repository's own unit test:
    `[4, 1, 2, ..., 64]`. -/
def pkTest : List Nat := 4 :: (List.range 64).map (fun i => i + 1)

/-- A demo orchestrator swap (direction `EvmToIcp`, as
    `initiate_evm_to_icp_swap` stores it), timelock 100 s. -/
def swapA : CrossChainSwap :=
  { swap_id := "s1", direction := .EvmToIcp, user_address := "0xaaa",
    user_icp_principal := "be2us", source_token := "tok", dest_token := "led",
    amount := 50, secret_hash := sha256 sZeros, timelock := 100,
    source_escrow := some "0xesc", dest_escrow := some "77",
    source_escrow_canister := none, status := .EscrowsDeployed,
    secret := some sZeros }

def stA : OrchState := ⟨[("s1", swapA)], [("s1", sZeros)]⟩

/-! ## Claim theorems -/

/-- Claim C7 (code_bug): `deposit_tokens` builds the ledger transfer with
    `Tokens::from_e8s(amount as u64)`.  At `amount = 2^64` (accepted:
    caller is the depositor, `amount = params.amount`, status `Created`,
    transfer succeeds) the issued ledger transfer carries `2^64 % 2^64 = 0`
    e8s while the escrow records `deposited_amount = 2^64`: the transfer
    does not move the full 128-bit value. -/
theorem deposit_tokens_truncates_amount_to_u64 :
    (deposit_tokens 5 1 18446744073709551616 (escrowInit pBig) (.ok 1)).call =
      some { memo := 0, amount_e8s := 0, fee_e8s := 10000, to_owner := 5 } ∧
    (deposit_tokens 5 1 18446744073709551616 (escrowInit pBig) (.ok 1)).st.deposited_amount =
      18446744073709551616 ∧
    (0 : Nat) ≠ 18446744073709551616 := by
  refine ⟨rfl, rfl, by decide⟩

/-- Claim C10 (code_bug): on the repository's own test key
    `[4, 1, ..., 64]`, the resolver backend's and the wallet canister's
    `public_key_to_eth_address` (both SHA-256 based) agree, but
    `EvmRpcClient::public_key_to_eth_address` (Keccak-256 based) returns a
    different address — the three embedded derivations are not equal. -/
theorem public_key_to_eth_address_variants_disagree :
    public_key_to_eth_address pkTest = "0xd049734ab0b7da2f52fcafbcef989ecfd91e870b" ∧
    wallet_public_key_to_eth_address pkTest = "0xd049734ab0b7da2f52fcafbcef989ecfd91e870b" ∧
    evm_rpc_public_key_to_eth_address pkTest = "0xe3963a54d648795d5abcc1f1150f8bdd70f2a5f1" ∧
    public_key_to_eth_address pkTest ≠ evm_rpc_public_key_to_eth_address pkTest := by
  refine ⟨by decide, by decide, by decide, by decide⟩

/-- The `external/icp_escrow.rs` swap entry used for Claim C2. -/
def extDemo : ExtSwap :=
  { evm_order_hash := "order-1", icp_escrow_canister := some 42,
    secret_hash := sha256 sZeros, amount := 50, recipient := 2,
    status := .IcpEscrowDeployed, created_at := 0, timelock := 1000 }

/-- Claim C2 (code_bug): `complete_swap` returns `Ok(())` and marks the
    stored swap `Completed`, but it ignores the secret, requires no Ready
    precondition (here the swap is merely `IcpEscrowDeployed`), and issues
    no inter-canister call at all — in particular it never reveals the
    secret on the destination escrow (`release_icp_escrow` is the helper
    that would do so and is never invoked) and never claims the source
    side. -/
theorem complete_swap_reveals_no_secret :
    complete_swap [("order-1", extDemo)] "order-1" sZeros =
      (.ok (), [("order-1", { extDemo with status := .Completed })], []) := by
  decide

/-- The orchestrator state produced by `initiate_evm_to_icp_swap` on the
    empty state (time 5 s, secret `sZeros`, EVM escrow `"0xsourceescrow"`,
    ICP escrow canister 77). -/
def stInit1 : OrchState :=
  (initiate_evm_to_icp_swap emptyOrch "0xaaa" "be2us" "0xsrctok" "ryjl3"
    1000000000 3600 sZeros 5000000000 "0xsourceescrow" 77).1

/-- Claim C1 (code_bug): for the `EvmToIcp` swap just created by
    `initiate_evm_to_icp_swap` (which stores the ICP escrow only in
    `dest_escrow` and leaves `source_escrow_canister = None`), even when
    both external probes report funded (`check_escrow_balance` true and
    `is_funded` true), `check_escrow_funding` returns `SourceFunded` —
    not `BothFunded` — and leaves the swap in `EscrowsDeployed` instead of
    `ReadyForExecution`. -/
theorem check_escrow_funding_misses_dest_for_evm_to_icp :
    (check_escrow_funding stInit1 "0xaaa-5000000000" (.ok true) (.ok true)).1 =
      .ok .SourceFunded ∧
    (check_escrow_funding stInit1 "0xaaa-5000000000" (.ok true) (.ok true)).1 ≠
      .ok .BothFunded ∧
    (check_escrow_funding stInit1 "0xaaa-5000000000" (.ok true) (.ok true)).2 = stInit1 ∧
    (lookupSwap stInit1.active_swaps "0xaaa-5000000000").map (fun sw => sw.status) =
      some .EscrowsDeployed := by
  refine ⟨by decide, by decide, by decide, by decide⟩

/-- Claim C4 counterexample evidence: at `now = timelock` exactly
    (swap timelock 100 s, call at 100 s) the orchestrator's
    `refund_expired_swap` rejects the call as unexpired, because its guard
    is `current_time <= swap.timelock`; the claim says a call at
    `now ≥ timelock` is not rejected as unexpired.  The escrow's own
    `refund_expired` accepts the same instant. -/
theorem refund_expired_swap_rejects_at_timelock_boundary :
    (refund_expired_swap stA "s1" 100000000000 (.ok "t1") (.ok "t2")).1 =
      .error (.ProcessingError "Swap has not expired yet") ∧
    (refund_expired stFun 1000000000000 (.ok 7)).res =
      .ok "Refunded 50 tokens to depositor at block 7" := by
  refine ⟨by decide, by decide⟩

/-- Claim C9 counterexample evidence: after a completed
    `refund_expired_swap` (which removes the swap from `active_swaps`), a
    second call with the same swap id fails with
    `OrderNotFound("Swap not found")` — not with
    `ProcessingError("already terminal")` — and performs no refund
    transfer. -/
theorem second_refund_fails_with_order_not_found :
    (refund_expired_swap stA "s1" 101000000000 (.ok "t1") (.ok "t2")).1 =
      .ok "Refunded expired swap with transactions" ∧
    (refund_expired_swap
        (refund_expired_swap stA "s1" 101000000000 (.ok "t1") (.ok "t2")).2.1
        "s1" 102000000000 (.ok "t1") (.ok "t2")).1 =
      .error (.OrderNotFound "Swap not found") ∧
    (refund_expired_swap
        (refund_expired_swap stA "s1" 101000000000 (.ok "t1") (.ok "t2")).2.1
        "s1" 102000000000 (.ok "t1") (.ok "t2")).1 ≠
      .error (.ProcessingError "already terminal") ∧
    (refund_expired_swap
        (refund_expired_swap stA "s1" 101000000000 (.ok "t1") (.ok "t2")).2.1
        "s1" 102000000000 (.ok "t1") (.ok "t2")).2.2 = [] := by
  refine ⟨by decide, by decide, by decide, by decide⟩

/-- Claim C3 (confirmed): `release_with_secret` returns `Ok` only when the
    caller is `params.resolver` (all other callers are rejected), the
    escrow is `Funded`, `now < timelock`, and `SHA-256(secret)` equals
    `params.secret_hash`; and on success the post-state has
    `status = Released` and `get_secret = Some(secret)`. -/
theorem release_with_secret_success_conditions :
    ∀ (caller : Nat) (secret : List Nat) (st : EscrowState) (timeNs : Nat)
      (outcome : TransferOutcome) (p : IcpEscrowParams) (m : String),
      st.params = some p →
      (release_with_secret caller secret st timeNs outcome).res = Except.ok m →
      caller = p.resolver ∧ st.status = .Funded ∧
      timeNs / 1000000000 < p.timelock ∧ sha256 secret = p.secret_hash ∧
      (release_with_secret caller secret st timeNs outcome).st.status = .Released ∧
      get_secret (release_with_secret caller secret st timeNs outcome).st = some secret := by
  intro caller secret st timeNs outcome p m hp h
  unfold release_with_secret at h ⊢
  rw [hp] at h ⊢
  by_cases h1 : caller = p.resolver
  · by_cases h2 : sha256 secret = p.secret_hash
    · by_cases h3 : st.status = .Funded
      · by_cases h4 : timeNs / 1000000000 < p.timelock
        · cases outcome with
          | ok b => simp_all [get_secret]
          | transferErr msg => simp_all
          | callErr msg => simp_all
        · simp_all
      · simp_all
    · simp_all
  · simp_all

/-- Claim C3 witness: a concrete successful release (caller 3 = resolver,
    secret `sZeros` whose SHA-256 is the hashlock, funded escrow, 999 s
    < timelock 1000 s, ledger Ok) instantiating the theorem. -/
theorem release_with_secret_success_conditions_witness :
    3 = pDemo.resolver ∧ stFun.status = .Funded ∧
    999000000000 / 1000000000 < pDemo.timelock ∧ sha256 sZeros = pDemo.secret_hash ∧
    (release_with_secret 3 sZeros stFun 999000000000 (.ok 5)).st.status = .Released ∧
    get_secret (release_with_secret 3 sZeros stFun 999000000000 (.ok 5)).st = some sZeros :=
  release_with_secret_success_conditions 3 sZeros stFun 999000000000 (.ok 5) pDemo
    "Released 50 tokens to recipient at block 5" rfl (by decide)

/-- Claim C6 (confirmed): any failing `deposit_tokens` call — wrong caller,
    wrong amount, wrong state, or ledger transfer failure — returns an
    error and leaves the escrow state exactly as it was; in particular a
    fresh escrow stays `Created` with `deposited_amount = 0`. -/
theorem deposit_tokens_failure_leaves_state_unchanged :
    ∀ (self caller amount : Nat) (st : EscrowState) (outcome : TransferOutcome)
      (p : IcpEscrowParams),
      st.params = some p →
      (caller ≠ p.depositor ∨ amount ≠ p.amount ∨ st.status ≠ .Created ∨
        ∀ b, outcome ≠ .ok b) →
      (∃ e, (deposit_tokens self caller amount st outcome).res = Except.error e) ∧
      (deposit_tokens self caller amount st outcome).st = st := by
  intro self caller amount st outcome p hp hdisj
  unfold deposit_tokens
  rw [hp]
  by_cases h1 : caller = p.depositor
  · by_cases h2 : amount = p.amount
    · by_cases h3 : st.status = .Created
      · have hout : ∀ b, outcome ≠ .ok b := by
          rcases hdisj with h | h | h | h
          · exact absurd h1 h
          · exact absurd h2 h
          · exact absurd h3 h
          · exact h
        cases outcome with
        | ok b => exact absurd rfl (hout b)
        | transferErr m => simp [h1, h2, h3]
        | callErr m => simp [h1, h2, h3]
      · simp [h1, h2, h3]
    · simp [h1, h2]
  · simp [h1]

/-- Claim C6 witness: scenario S4 — expected amount 50, depositor sends
    49: rejected, escrow unchanged (still `Created`, nothing recorded). -/
theorem deposit_tokens_failure_leaves_state_unchanged_witness :
    (∃ e, (deposit_tokens 5 1 49 (escrowInit pDemo) (.ok 1)).res = Except.error e) ∧
    (deposit_tokens 5 1 49 (escrowInit pDemo) (.ok 1)).st = escrowInit pDemo :=
  deposit_tokens_failure_leaves_state_unchanged 5 1 49 (escrowInit pDemo) (.ok 1) pDemo
    rfl (Or.inr (Or.inl (by decide)))

/-- Claim C4 amended (corrected): the escrow's `refund_expired` uses
    exactly `now ≥ timelock` — it never succeeds while `now < timelock`
    and a funded escrow refunds at any `now ≥ timelock`, including
    `now = timelock`; but the orchestrator's `refund_expired_swap` requires
    strictly `now > timelock` — it never succeeds unless
    `now > timelock`, and any call at `now ≤ timelock` (so in particular at
    `now = timelock` exactly) is rejected as unexpired. -/
theorem refund_timelock_boundaries :
    (∀ (st : EscrowState) (timeNs : Nat) (outcome : TransferOutcome)
       (p : IcpEscrowParams) (m : String), st.params = some p →
       (refund_expired st timeNs outcome).res = Except.ok m →
       p.timelock ≤ timeNs / 1000000000) ∧
    (∀ (st : EscrowState) (timeNs b : Nat) (p : IcpEscrowParams),
       st.params = some p → p.timelock ≤ timeNs / 1000000000 →
       st.status = .Funded →
       ∃ m, (refund_expired st timeNs (.ok b)).res = Except.ok m) ∧
    (∀ (st : OrchState) (id : String) (timeNs : Nat)
       (e i : Except ResolverError String) (sw : CrossChainSwap) (m : String),
       lookupSwap st.active_swaps id = some sw →
       (refund_expired_swap st id timeNs e i).1 = Except.ok m →
       sw.timelock < timeNs / 1000000000) ∧
    (∀ (st : OrchState) (id : String) (timeNs : Nat)
       (e i : Except ResolverError String) (sw : CrossChainSwap),
       lookupSwap st.active_swaps id = some sw →
       timeNs / 1000000000 ≤ sw.timelock →
       (refund_expired_swap st id timeNs e i).1 =
         .error (.ProcessingError "Swap has not expired yet")) := by
  refine ⟨?esc1, ?esc2, ?orch1, ?orch2⟩
  case esc1 =>
    intro st timeNs outcome p m hp h
    by_contra hlt
    rw [Nat.not_le] at hlt
    simp [refund_expired, hp, hlt] at h
  case esc2 =>
    intro st timeNs b p hp hle hfun
    have hnlt : ¬ timeNs / 1000000000 < p.timelock := Nat.not_lt.mpr hle
    simp [refund_expired, hp, hnlt, hfun]
  case orch1 =>
    intro st id timeNs e i sw m hsw h
    by_contra hle
    rw [Nat.not_lt] at hle
    simp [refund_expired_swap, hsw, hle] at h
  case orch2 =>
    intro st id timeNs e i sw hsw hle
    simp [refund_expired_swap, hsw, hle]

/-- Claim C4 witness: the escrow refunds at `now = timelock` exactly
    (1000 s), and the orchestrator rejects at `now = timelock` exactly
    (100 s for `swapA`). -/
theorem refund_timelock_boundaries_witness :
    (∃ m, (refund_expired stFun 1000000000000 (.ok 7)).res = Except.ok m) ∧
    (refund_expired_swap stA "s1" 100000000000 (.ok "t1") (.ok "t2")).1 =
      .error (.ProcessingError "Swap has not expired yet") :=
  ⟨refund_timelock_boundaries.2.1 stFun 1000000000000 7 pDemo rfl (by decide) rfl,
   refund_timelock_boundaries.2.2.2 stA "s1" 100000000000 (.ok "t1") (.ok "t2") swapA
     (by decide) (by decide)⟩

/-- Looking a key up after `HashMap::remove` of that key yields nothing. -/
theorem lookupSwap_remove (l : List (String × CrossChainSwap)) (id : String) :
    lookupSwap (removeSwap l id) id = none := by
  induction l with
  | nil => rfl
  | cons kv rest ih =>
    by_cases h : kv.1 = id
    · simp [removeSwap, h, ih]
    · simp [removeSwap, h, lookupSwap, ih]

/-- Any `Ok` return of `refund_expired_swap` leaves the state with the swap
    and its secret removed. -/
theorem refund_expired_swap_ok_state (st : OrchState) (id : String) (timeNs : Nat)
    (e i : Except ResolverError String) (m : String)
    (h : (refund_expired_swap st id timeNs e i).1 = Except.ok m) :
    (refund_expired_swap st id timeNs e i).2.1 = refundCleanup st id := by
  unfold refund_expired_swap at h ⊢
  repeat' split at h
  all_goals simp_all
  all_goals rw [if_neg (by omega)]

/-- Claim C9 amended (corrected): once `refund_expired_swap` has completed
    on a swap (removing it from the maps), a second call with the same
    swap id fails with `OrderNotFound("Swap not found")` — not
    `ProcessingError("already terminal")` — and performs no refund
    transfer. -/
theorem refund_expired_swap_no_double_refund :
    ∀ (st : OrchState) (id : String) (t1 t2 : Nat)
      (e1 i1 e2 i2 : Except ResolverError String) (m : String),
      (refund_expired_swap st id t1 e1 i1).1 = Except.ok m →
      (refund_expired_swap (refund_expired_swap st id t1 e1 i1).2.1 id t2 e2 i2).1 =
        .error (.OrderNotFound "Swap not found") ∧
      (refund_expired_swap (refund_expired_swap st id t1 e1 i1).2.1 id t2 e2 i2).2.2 = [] := by
  intro st id t1 t2 e1 i1 e2 i2 m h
  rw [refund_expired_swap_ok_state st id t1 e1 i1 m h]
  have hnone : lookupSwap (refundCleanup st id).active_swaps id = none :=
    lookupSwap_remove st.active_swaps id
  constructor <;> simp [refund_expired_swap, hnone]

/-- Claim C9 witness: the concrete double-refund attempt on `stA`. -/
theorem refund_expired_swap_no_double_refund_witness :
    (refund_expired_swap
        (refund_expired_swap stA "s1" 101000000000 (.ok "t1") (.ok "t2")).2.1
        "s1" 102000000000 (.ok "t3") (.ok "t4")).1 =
      .error (.OrderNotFound "Swap not found") ∧
    (refund_expired_swap
        (refund_expired_swap stA "s1" 101000000000 (.ok "t1") (.ok "t2")).2.1
        "s1" 102000000000 (.ok "t3") (.ok "t4")).2.2 = [] :=
  refund_expired_swap_no_double_refund stA "s1" 101000000000 102000000000
    (.ok "t1") (.ok "t2") (.ok "t3") (.ok "t4")
    "Refunded expired swap with transactions" (by decide)

/-! ## The release/refund interleaving (Claim C5) -/

/-- Demo escrow after release has committed while a refund continuation is
    still suspended. -/
def cReleased : EConf :=
  ⟨{ stFun with status := .Released, secret := some sZeros }, [.refundCommit]⟩

/-- The same configuration after the suspended refund also commits. -/
def cRefunded : EConf :=
  ⟨{ stFun with status := .Refunded, secret := some sZeros }, []⟩

/-- Claim C5 (code_bug): the escrow does NOT re-check `status` after the
    ledger-transfer suspension, so the interleaving
    deposit; commit; release starts at 999 s (checks pass: `Funded`,
    valid preimage, before the 1000 s timelock); refund starts at 1000 s
    (checks pass: still `Funded`, timelock reached); release commits
    (status `Released`); refund commits — drives the reachable
    configuration from status `Released` to status `Refunded`, an edge
    outside `Created → Funded`, `Funded → Released`, `Funded → Refunded`,
    with both the recipient payout and the depositor refund transfers
    executed. -/
theorem escrow_interleaving_released_then_refunded :
    EReach pDemo cReleased ∧ cReleased.escrow.status = .Released ∧
    EStep cReleased cRefunded ∧ cRefunded.escrow.status = .Refunded ∧
    EReach pDemo cRefunded := by
  have r5 : EReach pDemo cReleased :=
    EReach.step (EReach.step (EReach.step (EReach.step (EReach.step EReach.init
      (EStep.startDeposit ⟨escrowInit pDemo, []⟩ 1 50 (.depositCommit 50) (by decide)))
      (EStep.commitOk (escrowInit pDemo) [] [] (.depositCommit 50)))
      (EStep.startRelease ⟨stFun, []⟩ 3 sZeros 999000000000 (.releaseCommit sZeros) (by decide)))
      (EStep.startRefund ⟨stFun, [.releaseCommit sZeros]⟩ 1000000000000 .refundCommit (by decide)))
      (EStep.commitOk stFun [] [.refundCommit] (.releaseCommit sZeros))
  have r6 : EStep cReleased cRefunded :=
    EStep.commitOk { stFun with status := .Released, secret := some sZeros } [] [] .refundCommit
  exact ⟨r5, rfl, r6, rfl, EReach.step r5 r6⟩

/-! ## Hashlock consistency invariant (Claim C8) -/

theorem mem_removeSwap {l : List (String × CrossChainSwap)} {id : String}
    {x : String × CrossChainSwap} (hx : x ∈ removeSwap l id) : x ∈ l := by
  induction l with
  | nil => simp [removeSwap] at hx
  | cons kv rest ih =>
    by_cases h : kv.1 = id
    · rw [removeSwap, if_pos h] at hx
      exact List.mem_cons_of_mem _ (ih hx)
    · rw [removeSwap, if_neg h] at hx
      rcases List.mem_cons.mp hx with rfl | hx
      · exact List.mem_cons_self _ _
      · exact List.mem_cons_of_mem _ (ih hx)

theorem mem_updateSwapStatus {l : List (String × CrossChainSwap)} {id : String}
    {s : SwapStatus} {x : String × CrossChainSwap}
    (hx : x ∈ updateSwapStatus l id s) :
    ∃ kv ∈ l, x = kv ∨ x = (kv.1, { kv.2 with status := s }) := by
  induction l with
  | nil => simp [updateSwapStatus] at hx
  | cons kv rest ih =>
    rw [updateSwapStatus] at hx
    rcases List.mem_cons.mp hx with heq | hx
    · by_cases h : kv.1 = id
      · exact ⟨kv, List.mem_cons_self _ _, Or.inr (by rw [heq, if_pos h])⟩
      · exact ⟨kv, List.mem_cons_self _ _, Or.inl (by rw [heq, if_neg h])⟩
    · obtain ⟨kv', hmem, hor⟩ := ih hx
      exact ⟨kv', List.mem_cons_of_mem _ hmem, hor⟩

/-- `check_escrow_funding` either leaves the swap map unchanged or only
    rewrites one status to `ReadyForExecution`. -/
theorem check_escrow_funding_state (st : OrchState) (id : String)
    (e i : Except ResolverError Bool) :
    (check_escrow_funding st id e i).2.active_swaps = st.active_swaps ∨
    (check_escrow_funding st id e i).2.active_swaps =
      updateSwapStatus st.active_swaps id .ReadyForExecution := by
  unfold check_escrow_funding
  repeat' split
  all_goals first | exact Or.inl rfl | exact Or.inr rfl

/-- `refund_expired_swap` either leaves the swap map unchanged or removes
    the refunded swap. -/
theorem refund_expired_swap_state (st : OrchState) (id : String) (t : Nat)
    (e i : Except ResolverError String) :
    (refund_expired_swap st id t e i).2.1.active_swaps = st.active_swaps ∨
    (refund_expired_swap st id t e i).2.1.active_swaps = removeSwap st.active_swaps id := by
  unfold refund_expired_swap
  repeat' split
  all_goals first | exact Or.inl rfl | exact Or.inr rfl

/-- Hashlock consistency of the orchestrator swap map. -/
def SwapHashInv (st : OrchState) : Prop :=
  ∀ id sw, (id, sw) ∈ st.active_swaps → ∀ s, sw.secret = some s →
    sha256 s = sw.secret_hash

theorem orchReach_swapHashInv : ∀ st, OrchReach st → SwapHashInv st := by
  intro st h
  induction h with
  | init => intro id sw hm; simp [emptyOrch] at hm
  | initiateEvm ue ui stk dtk a d sec t se dc _ ih =>
    intro id sw hm s hs
    simp only [initiate_evm_to_icp_swap, insertSwap] at hm
    rcases List.mem_cons.mp hm with heq | hm
    · have hsw : sw = _ := congrArg Prod.snd heq
      rw [hsw] at hs ⊢
      simp only at hs ⊢
      cases hs
      rfl
    · exact ih id sw (mem_removeSwap hm) s hs
  | initiateIcp ui ue stk dtk a d sec t sc de _ ih =>
    intro id sw hm s hs
    simp only [initiate_icp_to_evm_swap, insertSwap] at hm
    rcases List.mem_cons.mp hm with heq | hm
    · have hsw : sw = _ := congrArg Prod.snd heq
      rw [hsw] at hs ⊢
      simp only at hs ⊢
      cases hs
      rfl
    · exact ih id sw (mem_removeSwap hm) s hs
  | check cid e i _ ih =>
    intro id sw hm s hs
    rcases check_escrow_funding_state _ cid e i with hsh | hsh
    · rw [hsh] at hm
      exact ih id sw hm s hs
    · rw [hsh] at hm
      obtain ⟨⟨k1, k2⟩, hmem, hor⟩ := mem_updateSwapStatus hm
      rcases hor with heq | heq
      · have h2 : sw = k2 := congrArg Prod.snd heq
        rw [h2] at hs ⊢
        exact ih k1 k2 hmem s hs
      · have h2 : sw = { k2 with status := .ReadyForExecution } :=
          congrArg Prod.snd heq
        rw [h2] at hs ⊢
        exact ih k1 k2 hmem s hs
  | refund rid t e i _ ih =>
    intro id sw hm s hs
    rcases refund_expired_swap_state _ rid t e i with hsh | hsh
    · rw [hsh] at hm
      exact ih id sw hm s hs
    · rw [hsh] at hm
      exact ih id sw (mem_removeSwap hm) s hs

theorem depositPending_sound {caller amount : Nat} {st : EscrowState} {k : PendingOp}
    (h : depositPending caller amount st = some k) : k = .depositCommit amount := by
  unfold depositPending at h
  repeat' split at h
  all_goals simp_all

theorem releasePending_sound {caller : Nat} {secret : List Nat} {st : EscrowState}
    {timeNs : Nat} {k : PendingOp} {p : IcpEscrowParams}
    (h : releasePending caller secret st timeNs = some k) (hp : st.params = some p) :
    sha256 secret = p.secret_hash ∧ k = .releaseCommit secret := by
  unfold releasePending at h
  rw [hp] at h
  repeat' split at h
  all_goals simp_all

theorem refundPending_sound {st : EscrowState} {timeNs : Nat} {k : PendingOp}
    (h : refundPending st timeNs = some k) : k = .refundCommit := by
  unfold refundPending at h
  repeat' split at h
  all_goals simp_all

/-- The escrow's hashlock consistency invariant: the init parameters stay,
    every suspended release continuation carries a valid preimage, and a
    `Released` escrow stores a preimage of its hashlock. -/
def EscrowSecretInv (p : IcpEscrowParams) (c : EConf) : Prop :=
  c.escrow.params = some p ∧
  (∀ s, PendingOp.releaseCommit s ∈ c.pending → sha256 s = p.secret_hash) ∧
  (c.escrow.status = .Released →
    ∃ s, c.escrow.secret = some s ∧ sha256 s = p.secret_hash)

theorem eReach_escrowSecretInv : ∀ (p : IcpEscrowParams) (c : EConf),
    EReach p c → EscrowSecretInv p c := by
  intro p c h
  induction h with
  | init =>
    refine ⟨rfl, ?_, ?_⟩
    · intro s hs; simp at hs
    · intro habs; simp [escrowInit] at habs
  | step _ hstep ih =>
    obtain ⟨hp, hpend, hrel⟩ := ih
    cases hstep with
    | startDeposit c caller amount k hk =>
      refine ⟨hp, ?_, hrel⟩
      intro s hs
      rcases List.mem_append.mp hs with hs | hs
      · exact hpend s hs
      · rw [depositPending_sound hk] at hs
        simp at hs
    | startRelease c caller secret timeNs k hk =>
      obtain ⟨hsha, hkk⟩ := releasePending_sound hk hp
      refine ⟨hp, ?_, hrel⟩
      intro s hs
      rcases List.mem_append.mp hs with hs | hs
      · exact hpend s hs
      · rw [hkk] at hs
        simp at hs
        rw [hs]
        exact hsha
    | startRefund c timeNs k hk =>
      refine ⟨hp, ?_, hrel⟩
      intro s hs
      rcases List.mem_append.mp hs with hs | hs
      · exact hpend s hs
      · rw [refundPending_sound hk] at hs
        simp at hs
    | commitOk st l1 l2 k =>
      have hmemwide : ∀ s, PendingOp.releaseCommit s ∈ l1 ++ l2 →
          PendingOp.releaseCommit s ∈ l1 ++ k :: l2 := by
        intro s hs
        rcases List.mem_append.mp hs with hs | hs
        · exact List.mem_append_left _ hs
        · exact List.mem_append_right _ (List.mem_cons_of_mem _ hs)
      cases k with
      | depositCommit a =>
        refine ⟨hp, fun s hs => hpend s (hmemwide s hs), ?_⟩
        intro habs
        simp [applyPending] at habs
      | releaseCommit s0 =>
        refine ⟨hp, fun s hs => hpend s (hmemwide s hs), ?_⟩
        intro _
        refine ⟨s0, rfl, ?_⟩
        exact hpend s0 (List.mem_append_right _ (List.mem_cons_self _ _))
      | refundCommit =>
        refine ⟨hp, fun s hs => hpend s (hmemwide s hs), ?_⟩
        intro habs
        simp [applyPending] at habs
    | commitFail st l1 l2 k =>
      refine ⟨hp, ?_, hrel⟩
      intro s hs
      rcases List.mem_append.mp hs with hs | hs
      · exact hpend s (List.mem_append_left _ hs)
      · exact hpend s (List.mem_append_right _ (List.mem_cons_of_mem _ hs))

/-- Claim C8 (confirmed): in every reachable orchestrator state, any stored
    swap whose `secret` is present satisfies
    `SHA-256(secret) = secret_hash`; and in every reachable escrow
    configuration (under the suspension semantics, any interleaving), a
    `Released` escrow stores a revealed secret with
    `SHA-256(revealed_secret) = params.secret_hash`. -/
theorem secret_hash_consistency :
    (∀ st, OrchReach st → ∀ id sw, (id, sw) ∈ st.active_swaps →
      ∀ s, sw.secret = some s → sha256 s = sw.secret_hash) ∧
    (∀ (p : IcpEscrowParams) (c : EConf), EReach p c →
      c.escrow.status = .Released →
      ∃ s, c.escrow.secret = some s ∧ sha256 s = p.secret_hash) :=
  ⟨fun st h => orchReach_swapHashInv st h,
   fun p c h hr => (eReach_escrowSecretInv p c h).2.2 hr⟩

/-- The swap stored by the concrete `initiate_evm_to_icp_swap` run behind
    `stInit1`. -/
def swapInit1 : CrossChainSwap :=
  (initiate_evm_to_icp_swap emptyOrch "0xaaa" "be2us" "0xsrctok" "ryjl3"
    1000000000 3600 sZeros 5000000000 "0xsourceescrow" 77).2

/-- Claim C8 witness: the invariant applied to the concrete reachable
    orchestrator state `stInit1` and to the concrete reachable released
    escrow configuration `cReleased`. -/
theorem secret_hash_consistency_witness :
    sha256 sZeros = swapInit1.secret_hash ∧
    (∃ s, cReleased.escrow.secret = some s ∧ sha256 s = pDemo.secret_hash) :=
  ⟨secret_hash_consistency.1 stInit1
     (OrchReach.initiateEvm "0xaaa" "be2us" "0xsrctok" "ryjl3" 1000000000 3600 sZeros
        5000000000 "0xsourceescrow" 77 OrchReach.init)
     "0xaaa-5000000000" swapInit1 (by decide) sZeros rfl,
   secret_hash_consistency.2 pDemo cReleased
     (EReach.step (EReach.step (EReach.step (EReach.step (EReach.step EReach.init
        (EStep.startDeposit ⟨escrowInit pDemo, []⟩ 1 50 (.depositCommit 50) (by decide)))
        (EStep.commitOk (escrowInit pDemo) [] [] (.depositCommit 50)))
        (EStep.startRelease ⟨stFun, []⟩ 3 sZeros 999000000000 (.releaseCommit sZeros) (by decide)))
        (EStep.startRefund ⟨stFun, [.releaseCommit sZeros]⟩ 1000000000000 .refundCommit (by decide)))
        (EStep.commitOk stFun [] [.refundCommit] (.releaseCommit sZeros)))
     rfl⟩
